import Mathlib

/-!
Verification of the request-validation / sanitization / marker-extraction
pipeline of the qatalyst-automation-tools serverless handlers
(`supabase/functions/generate-cypress/index.ts`,
 `supabase/functions/generate-robot/index.ts`,
 `supabase/functions/generate-gherkin/index.ts`).

Modelling conventions:
* JavaScript strings are modelled as `List Char` (`JSStr`); `.length`,
  `.slice(0, n)`, `.indexOf`, `.substring`, `.trim` become list operations.
* JSON / JavaScript values are the inductive `JVal`; `undefinedV` is the
  JavaScript `undefined` value (produced by missing-property access,
  never by `JSON.parse`).
* A thrown JavaScript `TypeError` (property access on `null`/`undefined`,
  calling a missing method) is modelled as `Except.error ()`.
* Each handler's single outbound gateway call is abstracted by an
  `Upstream` parameter describing how the `fetch` resolved; the handler
  body is a pure function of the parsed request body, the configured
  credential and that parameter.
-/

/-- JavaScript strings, modelled as lists of characters. -/
abbrev JSStr := List Char

/-- The character list of a Lean string literal. -/
def jstr (s : String) : JSStr := s.data

/-- White space removed by `String.prototype.trim`, restricted to the
ASCII white-space characters (the claims do not involve the additional
Unicode space characters JavaScript also trims). -/
def jsWhitespace (c : Char) : Bool :=
  c == ' ' || c == '\t' || c == '\n' || c == '\r' || c == '\x0b' || c == '\x0c'

/-- JavaScript `String.prototype.trim`. -/
def jsTrim (s : JSStr) : JSStr :=
  ((s.dropWhile jsWhitespace).reverse.dropWhile jsWhitespace).reverse

/-- First index at which `pat` occurs in a string
(JavaScript `String.prototype.indexOf`; `none` stands for `-1`). -/
def listIndexOf? (pat : JSStr) : JSStr → Option Nat
  | [] => if pat.isPrefixOf ([] : JSStr) then some 0 else none
  | c :: rest =>
    if pat.isPrefixOf (c :: rest) then some 0
    else (listIndexOf? pat rest).map (· + 1)

/-- JavaScript `String.prototype.substring` with both indices given:
indices are clamped to the string length and swapped when the first
exceeds the second. -/
def jsSubstring (s : JSStr) (a b : Nat) : JSStr :=
  (s.drop (min a b)).take (max a b - min a b)

/-- JSON / JavaScript values, as far as the handlers inspect them.
`undefinedV` is JavaScript `undefined`.  JSON numbers are modelled as
integers: no behaviour involved in the claims depends on fractional
values. -/
inductive JVal where
  | null
  | undefinedV
  | bool (b : Bool)
  | num (n : Int)
  | str (s : JSStr)
  | arr (elems : List JVal)
  | obj (fields : List (String × JVal))

/-- JavaScript truthiness. -/
def JVal.truthy : JVal → Bool
  | .null => false
  | .undefinedV => false
  | .bool b => b
  | .num n => n != 0
  | .str s => s != []
  | .arr _ => true
  | .obj _ => true

/-- The test `typeof v === "object"` (true for `null`, arrays and plain objects). -/
def JVal.typeofObject : JVal → Bool
  | .null => true
  | .arr _ => true
  | .obj _ => true
  | _ => false

/-- The test `typeof v === "string"`. -/
def JVal.isString : JVal → Bool
  | .str _ => true
  | _ => false

/-- The test `Array.isArray(v)`. -/
def JVal.isArray : JVal → Bool
  | .arr _ => true
  | _ => false

/-- The `.length` of a string value (only read under an `isString`
guard in the sources). -/
def JVal.lengthOfString : JVal → Nat
  | .str s => s.length
  | _ => 0

/-- The value of property `k` on a non-nullish receiver: object lookup,
`undefined` when absent or when the receiver is a primitive. -/
def JVal.fieldVal : JVal → String → JVal
  | .obj fs, k => (fs.lookup k).getD .undefinedV
  | _, _ => .undefinedV

/-- JavaScript property access `v.k`: throws a TypeError (modelled as
`Except.error`) when the receiver is `null` or `undefined`. -/
def JVal.getField : JVal → String → Except Unit JVal
  | .null, _ => .error ()
  | .undefinedV, _ => .error ()
  | v, k => .ok (v.fieldVal k)

/-- JavaScript optional-chaining access `v?.k`. -/
def JVal.optField : JVal → String → JVal
  | .null, _ => .undefinedV
  | .undefinedV, _ => .undefinedV
  | v, k => v.fieldVal k

/-- JavaScript `v?.[i]`: array indexing (out of range gives `undefined`),
strings index to one-character strings, objects look up the decimal key. -/
def JVal.optIndex : JVal → Nat → JVal
  | .null, _ => .undefinedV
  | .undefinedV, _ => .undefinedV
  | .arr l, i => (l.get? i).getD .undefinedV
  | .str s, i =>
    match s.get? i with
    | some c => .str [c]
    | none => .undefinedV
  | .obj fs, i => (fs.lookup (toString i)).getD .undefinedV
  | _, _ => .undefinedV

mutual

/-- JavaScript `String(v)` coercion. -/
def jsToString : JVal → JSStr
  | .null => jstr "null"
  | .undefinedV => jstr "undefined"
  | .bool true => jstr "true"
  | .bool false => jstr "false"
  | .num n => jstr (toString n)
  | .str s => s
  | .arr l => jsArrToString l
  | .obj _ => jstr "[object Object]"

/-- The coercion `Array.prototype.toString`: elements joined by commas, `null` and
`undefined` elements rendered empty. -/
def jsArrToString : List JVal → JSStr
  | [] => []
  | [JVal.null] => []
  | [JVal.undefinedV] => []
  | [v] => jsToString v
  | JVal.null :: rest => ',' :: jsArrToString rest
  | JVal.undefinedV :: rest => ',' :: jsArrToString rest
  | v :: rest => jsToString v ++ ',' :: jsArrToString rest

end

/-- JavaScript `a || b`. -/
def jsOr (a b : JVal) : JVal := if a.truthy then a else b

/-! ## Payload validator and sanitizer

`validateAutomationPayload` and `sanitizePayload` appear byte-identically
in `generate-cypress/index.ts` and `generate-robot/index.ts`
(lines 11-27 and 29-39 of each); they are embedded once. -/

def MAX_TEST_CASES : Nat := 50
def MAX_STRING_LENGTH : Nat := 1000

def msgNoTestCases : JSStr := jstr "No test cases provided. Please upload a valid CSV first."
def msgTooMany : JSStr := jstr "Too many test cases. Maximum is 50."
def msgStepTooLong : JSStr := jstr "Test case step too long (max 1000 chars)."
def msgExpectedTooLong : JSStr := jstr "Test case expected result too long (max 1000 chars)."

/-- The body of the `for (const tc of body.testCases)` loop of
`validateAutomationPayload` (lines 18-25): the `steps` check, then the
`expected` check.  `tc.steps` on a `null`/`undefined` element throws. -/
def checkTestCase (tc : JVal) : Except Unit (Option JSStr) := do
  let sv ← tc.getField "steps"
  if sv.truthy && sv.isString && decide (MAX_STRING_LENGTH < sv.lengthOfString) then
    return some msgStepTooLong
  let ev ← tc.getField "expected"
  if ev.truthy && ev.isString && decide (MAX_STRING_LENGTH < ev.lengthOfString) then
    return some msgExpectedTooLong
  return none

/-- The `for` loop over all test cases, stopping at the first failure. -/
def checkTestCases : List JVal → Except Unit (Option JSStr)
  | [] => .ok none
  | tc :: rest => do
    match ← checkTestCase tc with
    | some m => return some m
    | none => checkTestCases rest

/-- Function `validateAutomationPayload` (lines 11-27).  The first source check is
`!body?.testCases || !Array.isArray(body.testCases) ||
body.testCases.length === 0`; since every array is truthy, the first two
disjuncts collapse to "not an array", matched here by the catch-all
branch.  When the field is a truthy value, `body` is not nullish, so the
two source reads of `body.testCases` agree with `body?.testCases`. -/
def validateAutomationPayload (body : JVal) : Except Unit (Option JSStr) :=
  match body.optField "testCases" with
  | .arr l =>
    if l.length = 0 then .ok (some msgNoTestCases)
    else if MAX_TEST_CASES < l.length then .ok (some msgTooMany)
    else checkTestCases l
  | _ => .ok (some msgNoTestCases)

structure SanitizedTestCase where
  id : JSStr
  description : JSStr
  steps : JSStr
  expected : JSStr
deriving Repr, DecidableEq

structure GenerationRequest where
  testCases : List SanitizedTestCase
  locators : JVal
  testData : JVal

/-- One field of the `map` in `sanitizePayload` (lines 31-34):
`String(tc.f || "").slice(0, bound)`. -/
def sanitizeField (tc : JVal) (f : String) (bound : Nat) : Except Unit JSStr := do
  let v ← tc.getField f
  return (jsToString (jsOr v (.str []))).take bound

/-- The function mapped over the (at most 50 retained) test cases
(lines 30-35). -/
def sanitizeTestCase (tc : JVal) : Except Unit SanitizedTestCase := do
  let i ← sanitizeField tc "id" 100
  let d ← sanitizeField tc "description" MAX_STRING_LENGTH
  let s ← sanitizeField tc "steps" MAX_STRING_LENGTH
  let e ← sanitizeField tc "expected" MAX_STRING_LENGTH
  return ⟨i, d, s, e⟩

/-- The expression `(body.testCases || []).slice(0, 50).map(tc => ...)` (lines 30-35):
this throws on a truthy non-array `testCases` value — strings slice to
strings, which have no `.map`, and other primitives and plain objects
have no `.slice`. -/
def sliceAndMapTestCases (tcv : JVal) : Except Unit (List SanitizedTestCase) :=
  match jsOr tcv (.arr []) with
  | .arr l => (l.take MAX_TEST_CASES).mapM sanitizeTestCase
  | _ => .error ()

/-- Function `sanitizePayload` (lines 29-39).  `body.testCases` on a nullish body
throws. -/
def sanitizePayload (body : JVal) : Except Unit GenerationRequest := do
  let tcv ← body.getField "testCases"
  let tcs ← sliceAndMapTestCases tcv
  let locv ← body.getField "locators"
  let locators := if locv.truthy && locv.typeofObject then locv else JVal.obj []
  let tdv ← body.getField "testData"
  let testData := if tdv.truthy && tdv.typeofObject then tdv else JVal.obj []
  return ⟨tcs, locators, testData⟩

/-! ## Section extraction -/

/-- Function `extractSection` (generate-robot/index.ts lines 220-225):
```
const startIdx = text.indexOf(startMarker);
const endIdx = text.indexOf(endMarker);
if (startIdx === -1 || endIdx === -1) return '';
return text.substring(startIdx + startMarker.length, endIdx).trim();
```
Note that `substring` swaps its arguments when the first exceeds the
second. -/
def extractSection (text startMarker endMarker : JSStr) : JSStr :=
  match listIndexOf? startMarker text, listIndexOf? endMarker text with
  | some startIdx, some endIdx =>
    jsTrim (jsSubstring text (startIdx + startMarker.length) endIdx)
  | _, _ => []

/-- The Cypress handler's extraction (generate-cypress/index.ts lines
172-180): `content.match(/===X_START===([\s\S]*?)===X_END===/)` then
`?.[1]?.trim() || ''`.  The lazy regex match captures from the first
start-marker occurrence that is followed by an end-marker occurrence, up
to the first end marker after it. -/
def regexSection (text startMarker endMarker : JSStr) : JSStr :=
  match listIndexOf? startMarker text with
  | none => []
  | some i =>
    match listIndexOf? endMarker (text.drop (i + startMarker.length)) with
    | none => []
    | some d => jsTrim ((text.drop (i + startMarker.length)).take d)

/-- First regex of the Gherkin fence stripping
(generate-gherkin/index.ts line 168): `.replace(/^```(?:gherkin)?\n?/i, '')`. -/
def stripLeadingFence (s : JSStr) : JSStr :=
  if (jstr "```").isPrefixOf s then
    let r := s.drop 3
    let r1 := if (r.take 7).map Char.toLower = jstr "gherkin" then r.drop 7 else r
    if (jstr "\n").isPrefixOf r1 then r1.drop 1 else r1
  else s

/-- Second regex of the fence stripping: `.replace(/\n?```$/i, '')`. -/
def stripTrailingFence (s : JSStr) : JSStr :=
  if (jstr "```").isSuffixOf s then
    let r := s.take (s.length - 3)
    if (jstr "\n").isSuffixOf r then r.take (r.length - 1) else r
  else s

/-- The whole fence-stripping step (line 168):
`gherkin.replace(/^```(?:gherkin)?\n?/i, '').replace(/\n?```$/i, '').trim()`. -/
def stripFences (s : JSStr) : JSStr :=
  jsTrim (stripTrailingFence (stripLeadingFence s))

/-- The expression `data.choices?.[0]?.message?.content?.trim()` (generate-cypress line
162, generate-robot line 208, generate-gherkin line 157).  `ok none` is
JavaScript `undefined`; `Except.error` is the TypeError thrown by
`?.trim()` on a non-string, non-nullish `content` (or by `.choices` on a
nullish `data`). -/
def extractContent (data : JVal) : Except Unit (Option JSStr) := do
  let choices ← data.getField "choices"
  let msg := (choices.optIndex 0).optField "message"
  match msg.optField "content" with
  | .null => return none
  | .undefinedV => return none
  | .str s => return some (jsTrim s)
  | _ => .error ()

/-! ## Request handlers

The body of each `serve` callback on the `POST` path, as a pure function
of the parsed request body (`none` means `req.json()` threw), the
configured credential, and the resolution of the single gateway `fetch`.
Every `Except.error` raised inside the `try` block lands in the `catch`
and becomes the generic 500 response. -/

inductive ResponseBody where
  | errMsg (msg : JSStr)
  | artifacts (pageObject testFile dataFile : JSStr)
  | gherkin (text : JSStr)
deriving Repr, DecidableEq

structure HttpResponse where
  status : Nat
  body : ResponseBody
deriving Repr, DecidableEq

structure HandlerOutcome where
  response : HttpResponse
  calledGateway : Bool
deriving Repr, DecidableEq

/-- How the single outbound `fetch` to the AI gateway resolved:
a transport failure (rejected promise), or an HTTP response with a
status and the result of `response.json()`. -/
inductive Upstream where
  | netErr
  | resp (status : Nat) (body : Except Unit JVal)

/-- The test `response.ok`: status in the 2xx range. -/
def respOk (status : Nat) : Bool := 200 ≤ status && status ≤ 299

/-- The check `const LOVABLE_API_KEY = Deno.env.get("LOVABLE_API_KEY");
if (!LOVABLE_API_KEY) ...`: the credential must be present and non-empty. -/
def keyConfigured : Option String → Bool
  | none => false
  | some k => k != ""

def msgConfig : JSStr := jstr "Service configuration error. Please try again later."
def msgRateLimit : JSStr := jstr "AI Generation limit reached. Please try again later."
def msgPayment : JSStr := jstr "Payment required. Please add credits to your workspace."
def msgGenFailed : JSStr := jstr "Failed to generate code. Please try again."
def msgGherkinFailed : JSStr := jstr "Failed to generate Gherkin. Please try again."

/-- The `POST` path of the generate-cypress handler
(generate-cypress/index.ts lines 41-191).  The prompt (lines 68-124) is a
pure string handed to the gateway; since the gateway's reply is the
`Upstream` parameter here, the prompt influences no modelled observable
and is not materialized. -/
def cypressHandler (body? : Option JVal) (key : Option String) (up : Upstream) :
    HandlerOutcome :=
  match body? with
  | none => ⟨⟨500, .errMsg msgGenFailed⟩, false⟩
  | some body =>
    match validateAutomationPayload body with
    | .error _ => ⟨⟨500, .errMsg msgGenFailed⟩, false⟩
    | .ok (some m) => ⟨⟨400, .errMsg m⟩, false⟩
    | .ok none =>
      match sanitizePayload body with
      | .error _ => ⟨⟨500, .errMsg msgGenFailed⟩, false⟩
      | .ok _req =>
        if !keyConfigured key then ⟨⟨500, .errMsg msgConfig⟩, false⟩
        else
          match up with
          | .netErr => ⟨⟨500, .errMsg msgGenFailed⟩, true⟩
          | .resp status rbody =>
            if !respOk status then
              if status = 429 then ⟨⟨429, .errMsg msgRateLimit⟩, true⟩
              else if status = 402 then ⟨⟨402, .errMsg msgPayment⟩, true⟩
              else ⟨⟨500, .errMsg msgGenFailed⟩, true⟩
            else
              match rbody with
              | .error _ => ⟨⟨500, .errMsg msgGenFailed⟩, true⟩
              | .ok data =>
                match extractContent data with
                | .error _ => ⟨⟨500, .errMsg msgGenFailed⟩, true⟩
                | .ok none => ⟨⟨500, .errMsg msgGenFailed⟩, true⟩
                | .ok (some c) =>
                  if c = [] then ⟨⟨500, .errMsg msgGenFailed⟩, true⟩
                  else
                    ⟨⟨200, .artifacts
                      (regexSection c (jstr "===PAGE_OBJECT_START===") (jstr "===PAGE_OBJECT_END==="))
                      (regexSection c (jstr "===TEST_FILE_START===") (jstr "===TEST_FILE_END==="))
                      (regexSection c (jstr "===DATA_FILE_START===") (jstr "===DATA_FILE_END==="))⟩,
                    true⟩

def robotFallbackPageObject : JSStr :=
  jstr "# Keywords could not be parsed separately\n# Please review the test file for all content"
def robotFallbackDataFile : JSStr := jstr "# No data file was generated"
def robotNoKeywords : JSStr := jstr "# No keywords generated"
def robotNoTestFile : JSStr := jstr "# No test file generated"
def robotNoDataFile : JSStr := jstr "# No data file generated"

/-- The `POST` path of the generate-robot handler
(generate-robot/index.ts lines 41-260), including the marker fallback of
lines 231-242.  As for the Cypress handler, the prompt (lines 70-170) is
not materialized. -/
def robotHandler (body? : Option JVal) (key : Option String) (up : Upstream) :
    HandlerOutcome :=
  match body? with
  | none => ⟨⟨500, .errMsg msgGenFailed⟩, false⟩
  | some body =>
    match validateAutomationPayload body with
    | .error _ => ⟨⟨500, .errMsg msgGenFailed⟩, false⟩
    | .ok (some m) => ⟨⟨400, .errMsg m⟩, false⟩
    | .ok none =>
      match sanitizePayload body with
      | .error _ => ⟨⟨500, .errMsg msgGenFailed⟩, false⟩
      | .ok _req =>
        if !keyConfigured key then ⟨⟨500, .errMsg msgConfig⟩, false⟩
        else
          match up with
          | .netErr => ⟨⟨500, .errMsg msgGenFailed⟩, true⟩
          | .resp status rbody =>
            if !respOk status then
              if status = 429 then ⟨⟨429, .errMsg msgRateLimit⟩, true⟩
              else if status = 402 then ⟨⟨402, .errMsg msgPayment⟩, true⟩
              else ⟨⟨500, .errMsg msgGenFailed⟩, true⟩
            else
              match rbody with
              | .error _ => ⟨⟨500, .errMsg msgGenFailed⟩, true⟩
              | .ok data =>
                match extractContent data with
                | .error _ => ⟨⟨500, .errMsg msgGenFailed⟩, true⟩
                | .ok none => ⟨⟨500, .errMsg msgGenFailed⟩, true⟩
                | .ok (some c) =>
                  if c = [] then ⟨⟨500, .errMsg msgGenFailed⟩, true⟩
                  else
                    let robotTest := extractSection c (jstr "===ROBOT_TEST_START===") (jstr "===ROBOT_TEST_END===")
                    let keywords := extractSection c (jstr "===KEYWORDS_START===") (jstr "===KEYWORDS_END===")
                    let dataFile := extractSection c (jstr "===DATA_FILE_START===") (jstr "===DATA_FILE_END===")
                    if robotTest = [] && keywords = [] && dataFile = [] then
                      ⟨⟨200, .artifacts robotFallbackPageObject c robotFallbackDataFile⟩, true⟩
                    else
                      ⟨⟨200, .artifacts
                        (if keywords = [] then robotNoKeywords else keywords)
                        (if robotTest = [] then robotNoTestFile else robotTest)
                        (if dataFile = [] then robotNoDataFile else dataFile)⟩,
                      true⟩

/-! ## Gherkin handler -/

def MAX_URL_LENGTH : Nat := 500
def MAX_DESC_LENGTH : Nat := 2000

def msgUrlRequired : JSStr := jstr "A valid URL is required."
def msgUrlTooLong : JSStr := jstr "URL must be less than 500 characters."
def msgDescRequired : JSStr := jstr "A scenario description of at least 5 characters is required."
def msgDescTooLong : JSStr := jstr "Scenario description must be less than 2000 characters."

/-- The part of the Gherkin prompt template before `${sanitizedUrl}`
(generate-gherkin/index.ts line 59-62). -/
def gherkinPromptPre : String :=
"You are a senior QA engineer writing Gherkin BDD scenarios.

Generate a Gherkin feature file based on this info:
URL: "

/-- The part of the template between `${sanitizedUrl}` and
`${sanitizedDesc}` (line 63). -/
def gherkinPromptMid : String := "
Scenario description: "

/-- The part of the template after `${sanitizedDesc}` (lines 64-119). -/
def gherkinPromptPost : String :=
"

STRICT FORMAT RULES — YOU MUST FOLLOW EVERY RULE EXACTLY:

1. Start with a Feature line, then the BDD narrative (each on its own line, indented with 2 spaces):
   Feature: <Feature Name>
     As a <role>
     I want <goal>
     So that <benefit>

2. Scenario naming:
   - Concise, readable titles
   - Do NOT include numbered steps, URLs, or technical IDs in scenario titles
   - Good: \"Scenario: Successful login with valid credentials\"
   - Bad: \"Scenario: 1. Navigate to https://example.com and login\"

3. Step structure — each step MUST be on its own line with proper indentation (4 spaces):
   - Given: preconditions or initial state (ONE precondition per line)
   - When: a SINGLE main user action
   - And: additional user actions (each on its own line, after When)
   - Then: ONE expected outcome
   - And: additional expected outcomes (each on its own line, after Then)

4. CRITICAL formatting rules:
   - Do NOT include numbering (1., 2., 3.) inside steps — NEVER
   - Do NOT place multiple actions inside a single When step
   - Do NOT leave raw text outside of Gherkin steps
   - Do NOT add blank lines between steps within a scenario
   - Add ONE blank line between scenarios
   - Error messages MUST be part of Then or And steps, e.g.:
     Then an error message \"Epic sadface: Username is required\" should be displayed

5. Be specific with actions and expected results using actual UI references (buttons, fields, labels).

6. Output ONLY the Gherkin content. No explanation, no markdown fences, no comments.

EXAMPLE OUTPUT FORMAT:
Feature: Login Functionality
  As a user
  I want to login into the system
  So that I can access the products page

  Scenario: Successful login with valid credentials
    Given the user is on the login page
    When the user enters a valid username
    And the user enters a valid password
    And the user clicks the Login button
    Then the user should be redirected to the Products page

  Scenario: Login fails with invalid credentials
    Given the user is on the login page
    When the user enters an invalid username
    And the user enters a valid password
    And the user clicks the Login button
    Then an error message should be displayed
    And the error message should be \"Epic sadface: Username and password do not match any user in this service\"
"

/-- The rendered Gherkin prompt (lines 59-119). -/
def gherkinPrompt (u d : JSStr) : JSStr :=
  jstr gherkinPromptPre ++ u ++ jstr gherkinPromptMid ++ d ++ jstr gherkinPromptPost

/-- Input validation and sanitization of the Gherkin handler (lines
18-48).  `Sum.inl`: the 400 error message; `Sum.inr`: the pair
`(sanitizedUrl, sanitizedDesc)`.  `!url || url.trim().length === 0`
collapses to the trimmed-empty test on strings (an empty string trims to
an empty string), and any non-string falls to the catch-all branches. -/
def gherkinValidate (body : JVal) : JSStr ⊕ (JSStr × JSStr) :=
  match body.optField "url", body.optField "scenarioDesc" with
  | .str u, dval =>
    if (jsTrim u).length = 0 then .inl msgUrlRequired
    else if MAX_URL_LENGTH < u.length then .inl msgUrlTooLong
    else
      match dval with
      | .str d =>
        if (jsTrim d).length < 5 then .inl msgDescRequired
        else if MAX_DESC_LENGTH < d.length then .inl msgDescTooLong
        else .inr ((jsTrim u).take MAX_URL_LENGTH, (jsTrim d).take MAX_DESC_LENGTH)
      | _ => .inl msgDescRequired
  | _, _ => .inl msgUrlRequired

structure GherkinOutcome where
  response : HttpResponse
  calledGateway : Bool
  promptSent : Option JSStr
deriving Repr, DecidableEq

/-- The `POST` path of the generate-gherkin handler
(generate-gherkin/index.ts lines 11-181).  `promptSent` records the
prompt of the gateway call, `none` when no call was made. -/
def gherkinHandler (body? : Option JVal) (key : Option String) (up : Upstream) :
    GherkinOutcome :=
  match body? with
  | none => ⟨⟨500, .errMsg msgGherkinFailed⟩, false, none⟩
  | some body =>
    match gherkinValidate body with
    | .inl m => ⟨⟨400, .errMsg m⟩, false, none⟩
    | .inr (su, sd) =>
      if !keyConfigured key then ⟨⟨500, .errMsg msgConfig⟩, false, none⟩
      else
        let prompt := gherkinPrompt su sd
        match up with
        | .netErr => ⟨⟨500, .errMsg msgGherkinFailed⟩, true, some prompt⟩
        | .resp status rbody =>
          if !respOk status then
            if status = 429 then ⟨⟨429, .errMsg msgRateLimit⟩, true, some prompt⟩
            else if status = 402 then ⟨⟨402, .errMsg msgPayment⟩, true, some prompt⟩
            else ⟨⟨500, .errMsg msgGherkinFailed⟩, true, some prompt⟩
          else
            match rbody with
            | .error _ => ⟨⟨500, .errMsg msgGherkinFailed⟩, true, some prompt⟩
            | .ok data =>
              match extractContent data with
              | .error _ => ⟨⟨500, .errMsg msgGherkinFailed⟩, true, some prompt⟩
              | .ok none => ⟨⟨500, .errMsg msgGherkinFailed⟩, true, some prompt⟩
              | .ok (some c) =>
                if c = [] then ⟨⟨500, .errMsg msgGherkinFailed⟩, true, some prompt⟩
                else ⟨⟨200, .gherkin (stripFences c)⟩, true, some prompt⟩

/-! ## Specification-side predicates and round-trip views -/

/-- Property access on the value throws (it is `null`/`undefined`). -/
def JVal.nullish : JVal → Bool
  | .null => true
  | .undefinedV => true
  | _ => false

/-- The claim's per-field condition: the value is a string longer than
`MAX_STRING_LENGTH`. -/
def longStr : JVal → Bool
  | .str s => decide (MAX_STRING_LENGTH < s.length)
  | _ => false

/-- The claim's per-test-case condition: the `steps` or the `expected`
field is a string longer than `MAX_STRING_LENGTH`. -/
def hasLongField (tc : JVal) : Bool :=
  longStr (tc.fieldVal "steps") || longStr (tc.fieldVal "expected")

/-- The sanitized test case viewed again as a JavaScript object (as the
serialized output of one run fed back into the Sanitizer). -/
def SanitizedTestCase.toJVal (stc : SanitizedTestCase) : JVal :=
  .obj [("id", .str stc.id), ("description", .str stc.description),
    ("steps", .str stc.steps), ("expected", .str stc.expected)]

/-- The sanitizer output viewed again as a JavaScript request body. -/
def GenerationRequest.toJVal (r : GenerationRequest) : JVal :=
  .obj [("testCases", .arr (r.testCases.map SanitizedTestCase.toJVal)),
    ("locators", r.locators), ("testData", r.testData)]

/-- The claim's first condition: `url` missing, not a string, or blank
after trimming. -/
def specUrlMissing (body : JVal) : Bool :=
  match body.optField "url" with
  | .str u => decide (jsTrim u = [])
  | _ => true

/-- The claim's second condition: `url` longer than 500 characters
(tested on the untrimmed string, as in the source). -/
def specUrlTooLong (body : JVal) : Bool :=
  match body.optField "url" with
  | .str u => decide (MAX_URL_LENGTH < u.length)
  | _ => false

/-- The claim's third condition: `scenarioDesc` missing, not a string,
or shorter than 5 characters after trimming. -/
def specDescMissing (body : JVal) : Bool :=
  match body.optField "scenarioDesc" with
  | .str d => decide ((jsTrim d).length < 5)
  | _ => true

/-- The claim's fourth condition: `scenarioDesc` longer than 2000
characters (untrimmed, as in the source). -/
def specDescTooLong (body : JVal) : Bool :=
  match body.optField "scenarioDesc" with
  | .str d => decide (MAX_DESC_LENGTH < d.length)
  | _ => false

/-- The disjunction of the four 400 conditions of the claim. -/
def gherkinBad (body : JVal) : Bool :=
  specUrlMissing body || specUrlTooLong body || specDescMissing body || specDescTooLong body

/-! ## Marker occurrences

Specification-level description of marker occurrences, and the
correspondence with `listIndexOf?`. -/

/-- Pattern `pat` occurs in `l` starting at index `i`. -/
def occursAt (pat l : JSStr) (i : Nat) : Prop := pat.isPrefixOf (l.drop i) = true

/-- Index `i` is the first occurrence of `pat` in `l`. -/
def firstOccursAt (pat l : JSStr) (i : Nat) : Prop :=
  occursAt pat l i ∧ ∀ j, j < i → ¬ occursAt pat l j

/-- Pattern `pat` occurs somewhere in `l`. -/
def occursIn (pat l : JSStr) : Prop := ∃ i, occursAt pat l i

theorem listIndexOf?_some (pat : JSStr) :
    ∀ (l : JSStr) (i : Nat), listIndexOf? pat l = some i → firstOccursAt pat l i := by
  intro l
  induction l with
  | nil =>
    intro i h
    unfold listIndexOf? at h
    split at h
    · rename_i hp
      cases h
      exact ⟨hp, fun j hj => absurd hj (Nat.not_lt_zero j)⟩
    · cases h
  | cons c rest ih =>
    intro i h
    unfold listIndexOf? at h
    split at h
    · rename_i hp
      cases h
      exact ⟨hp, fun j hj => absurd hj (Nat.not_lt_zero j)⟩
    · rename_i hp
      rcases Option.map_eq_some'.mp h with ⟨i', hi', rfl⟩
      obtain ⟨h1, h2⟩ := ih i' hi'
      refine ⟨?_, ?_⟩
      · simpa [occursAt, List.drop_succ_cons] using h1
      · intro j hj
        cases j with
        | zero => simpa [occursAt] using hp
        | succ k =>
          have hk : k < i' := Nat.lt_of_succ_lt_succ hj
          simpa [occursAt, List.drop_succ_cons] using h2 k hk

theorem listIndexOf?_none (pat : JSStr) :
    ∀ (l : JSStr), listIndexOf? pat l = none → ∀ i, ¬ occursAt pat l i := by
  intro l
  induction l with
  | nil =>
    intro h i
    unfold listIndexOf? at h
    split at h
    · cases h
    · rename_i hp
      simpa [occursAt, List.drop_nil] using hp
  | cons c rest ih =>
    intro h i
    unfold listIndexOf? at h
    split at h
    · cases h
    · rename_i hp
      have hrest : listIndexOf? pat rest = none := Option.map_eq_none'.mp h
      cases i with
      | zero => simpa [occursAt] using hp
      | succ k =>
        simpa [occursAt, List.drop_succ_cons] using ih hrest k

theorem firstOccursAt_unique (pat l : JSStr) (i j : Nat)
    (hi : firstOccursAt pat l i) (hj : firstOccursAt pat l j) : i = j := by
  rcases Nat.lt_trichotomy i j with h | h | h
  · exact absurd hi.1 (hj.2 i h)
  · exact h
  · exact absurd hj.1 (hi.2 j h)

theorem firstOccursAt_indexOf (pat l : JSStr) (i : Nat) (h : firstOccursAt pat l i) :
    listIndexOf? pat l = some i := by
  cases hx : listIndexOf? pat l with
  | none => exact absurd h.1 (listIndexOf?_none pat l hx i)
  | some i' =>
    have := listIndexOf?_some pat l i' hx
    rw [firstOccursAt_unique pat l i' i this h]

theorem not_occursIn_of_indexOf_none (pat l : JSStr) (h : listIndexOf? pat l = none) :
    ¬ occursIn pat l := by
  rintro ⟨i, hi⟩
  exact listIndexOf?_none pat l h i hi

theorem indexOf_none_of_not_occursIn (pat l : JSStr) (h : ¬ occursIn pat l) :
    listIndexOf? pat l = none := by
  cases hx : listIndexOf? pat l with
  | none => rfl
  | some i => exact absurd ⟨i, (listIndexOf?_some pat l i hx).1⟩ h

/-! ## Claim C1 -/

/-- C1 (amended): when both markers occur and the first end-marker
occurrence starts at or after the end of the first start-marker
occurrence, `extractSection` returns exactly the substring strictly
between those first occurrences, trimmed of surrounding whitespace; and
whenever either marker does not occur at all, it returns the empty
string (the function is total, so no exception is possible).  The
original claim's unconditional "between the first occurrences" clause is
refuted by `extractSection_out_of_order_cex`: with the first end-marker
occurrence before the start marker, `substring` swaps its arguments. -/
theorem extractSection_between_first_markers (text s e : JSStr) :
    (∀ i j, firstOccursAt s text i → firstOccursAt e text j → i + s.length ≤ j →
      extractSection text s e = jsTrim ((text.drop (i + s.length)).take (j - (i + s.length))))
    ∧ ((¬ occursIn s text ∨ ¬ occursIn e text) → extractSection text s e = []) := by
  constructor
  · intro i j hs he hij
    have hs' := firstOccursAt_indexOf s text i hs
    have he' := firstOccursAt_indexOf e text j he
    unfold extractSection
    rw [hs', he']
    show jsTrim (jsSubstring text (i + s.length) j) = _
    unfold jsSubstring
    rw [min_eq_left hij, max_eq_right hij]
  · intro h
    unfold extractSection
    rcases h with h | h
    · rw [indexOf_none_of_not_occursIn s text h]
    · rw [indexOf_none_of_not_occursIn e text h]
      cases listIndexOf? s text <;> rfl

/-- C1 witness: on `"a===PAGE_OBJECT_START=== code ===PAGE_OBJECT_END===b"`
the extractor recovers `"code"`, and on marker-free text it returns the
empty string, both obtained through
`extractSection_between_first_markers`. -/
theorem extractSection_between_first_markers_witness :
    extractSection (jstr "a===PAGE_OBJECT_START=== code ===PAGE_OBJECT_END===b")
      (jstr "===PAGE_OBJECT_START===") (jstr "===PAGE_OBJECT_END===") = jstr "code"
    ∧ extractSection (jstr "bare text") (jstr "===PAGE_OBJECT_START===")
      (jstr "===PAGE_OBJECT_END===") = [] := by
  constructor
  · have h := (extractSection_between_first_markers
        (jstr "a===PAGE_OBJECT_START=== code ===PAGE_OBJECT_END===b")
        (jstr "===PAGE_OBJECT_START===") (jstr "===PAGE_OBJECT_END===")).1 1 30
        (listIndexOf?_some _ _ _ (by rfl)) (listIndexOf?_some _ _ _ (by rfl)) (by decide)
    rw [h]
    rfl
  · exact (extractSection_between_first_markers _ _ _).2
      (Or.inl (not_occursIn_of_indexOf_none _ _ (by rfl)))

/-- C1 counterexample: both markers occur, but the first end-marker
occurrence (index 0) lies before the first start-marker occurrence
(index 25).  The extractor returns the *whole* input (including both
markers) because `substring` swaps its arguments; the claim instead
demands the text strictly between the occurrences (empty under the
directional reading, `"mid"` under the symmetric one). -/
theorem extractSection_out_of_order_cex :
    extractSection (jstr "===ROBOT_TEST_END=== mid ===ROBOT_TEST_START===")
      (jstr "===ROBOT_TEST_START===") (jstr "===ROBOT_TEST_END===")
      = jstr "===ROBOT_TEST_END=== mid ===ROBOT_TEST_START==="
    ∧ firstOccursAt (jstr "===ROBOT_TEST_START===")
        (jstr "===ROBOT_TEST_END=== mid ===ROBOT_TEST_START===") 25
    ∧ firstOccursAt (jstr "===ROBOT_TEST_END===")
        (jstr "===ROBOT_TEST_END=== mid ===ROBOT_TEST_START===") 0
    ∧ jstr "===ROBOT_TEST_END=== mid ===ROBOT_TEST_START===" ≠ ([] : JSStr)
    ∧ jstr "===ROBOT_TEST_END=== mid ===ROBOT_TEST_START===" ≠ jstr "mid" := by
  refine ⟨by rfl, listIndexOf?_some _ _ _ (by rfl), listIndexOf?_some _ _ _ (by rfl),
    by decide, by decide⟩

/-! ## Claim C2 -/

/-- C2 (amended): when only one marker of the pair occurs (or neither),
`extractSection` returns the empty string, and the function is total, so
no exception is ever raised.  However, when both markers occur with the
first end-marker occurrence starting before the end of the first
start-marker occurrence (out-of-order markers), the result is NOT empty
in general: JavaScript `substring` swaps its arguments, so the extractor
returns the trimmed text from the end-marker position up to the end of
the start marker — see `extractSection_swapped_nonempty_cex`. -/
theorem extractSection_unmatched_or_swapped (text s e : JSStr) :
    ((¬ occursIn s text ∨ ¬ occursIn e text) → extractSection text s e = [])
    ∧ (∀ i j, firstOccursAt s text i → firstOccursAt e text j → j < i + s.length →
      extractSection text s e = jsTrim ((text.drop j).take (i + s.length - j))) := by
  constructor
  · intro h
    unfold extractSection
    rcases h with h | h
    · rw [indexOf_none_of_not_occursIn s text h]
    · rw [indexOf_none_of_not_occursIn e text h]
      cases listIndexOf? s text <;> rfl
  · intro i j hs he hij
    have hs' := firstOccursAt_indexOf s text i hs
    have he' := firstOccursAt_indexOf e text j he
    unfold extractSection
    rw [hs', he']
    show jsTrim (jsSubstring text (i + s.length) j) = _
    unfold jsSubstring
    have hle : j ≤ i + s.length := Nat.le_of_lt hij
    rw [min_eq_right hle, max_eq_left hle]

/-- C2 witness: a text containing neither marker yields the empty
string, and an out-of-order text yields the swapped-bounds substring
(here the whole text), both through
`extractSection_unmatched_or_swapped`. -/
theorem extractSection_unmatched_or_swapped_witness :
    extractSection (jstr "plain output") (jstr "===KEYWORDS_START===")
      (jstr "===KEYWORDS_END===") = []
    ∧ extractSection (jstr "===DATA_FILE_END===.===DATA_FILE_START===")
      (jstr "===DATA_FILE_START===") (jstr "===DATA_FILE_END===")
      = jstr "===DATA_FILE_END===.===DATA_FILE_START===" := by
  constructor
  · exact (extractSection_unmatched_or_swapped _ _ _).1
      (Or.inl (not_occursIn_of_indexOf_none _ _ (by rfl)))
  · have h := (extractSection_unmatched_or_swapped
        (jstr "===DATA_FILE_END===.===DATA_FILE_START===")
        (jstr "===DATA_FILE_START===") (jstr "===DATA_FILE_END===")).2 20 0
        (listIndexOf?_some _ _ _ (by rfl)) (listIndexOf?_some _ _ _ (by rfl)) (by decide)
    rw [h]
    rfl

/-- C2 counterexample: both markers occur out of order (first end-marker
occurrence at index 0, first start-marker occurrence at index 21), and
the extractor returns the whole non-empty input rather than the empty
string the claim requires. -/
theorem extractSection_swapped_nonempty_cex :
    extractSection (jstr "===KEYWORDS_END=== x ===KEYWORDS_START===")
      (jstr "===KEYWORDS_START===") (jstr "===KEYWORDS_END===")
      = jstr "===KEYWORDS_END=== x ===KEYWORDS_START==="
    ∧ firstOccursAt (jstr "===KEYWORDS_START===")
        (jstr "===KEYWORDS_END=== x ===KEYWORDS_START===") 21
    ∧ firstOccursAt (jstr "===KEYWORDS_END===")
        (jstr "===KEYWORDS_END=== x ===KEYWORDS_START===") 0
    ∧ jstr "===KEYWORDS_END=== x ===KEYWORDS_START===" ≠ ([] : JSStr) := by
  refine ⟨by rfl, listIndexOf?_some _ _ _ (by rfl), listIndexOf?_some _ _ _ (by rfl), by decide⟩

/-! ## Claim C9 -/

theorem stripLeadingFence_wrapped (x : JSStr) :
    stripLeadingFence ('`' :: '`' :: '`' :: '\n' :: x) = x := by
  unfold stripLeadingFence
  simp [List.isPrefixOf, jstr]

theorem stripTrailingFence_wrapped (inner : JSStr) :
    stripTrailingFence (inner ++ ['\n', '`', '`', '`']) = inner := by
  unfold stripTrailingFence
  have hsuf : List.isSuffixOf (jstr "```") (inner ++ ['\n', '`', '`', '`']) = true := by
    simp [jstr, List.isSuffixOf, List.isPrefixOf]
  rw [hsuf]
  have hlen : (inner ++ ['\n', '`', '`', '`']).length - 3 = inner.length + 1 := by
    simp
  rw [if_pos rfl, hlen]
  have htake : (inner ++ ['\n', '`', '`', '`']).take (inner.length + 1)
      = inner ++ ['\n'] := by
    have h5 : (inner ++ ['\n', '`', '`', '`']).take (inner.length + 1)
        = inner ++ (['\n', '`', '`', '`'] : JSStr).take 1 := List.take_append 1
    simpa using h5
  rw [htake]
  show (if List.isSuffixOf (jstr "\n") (inner ++ ['\n']) = true
      then List.take ((inner ++ ['\n']).length - 1) (inner ++ ['\n'])
      else inner ++ ['\n']) = inner
  have hsuf2 : List.isSuffixOf (jstr "\n") (inner ++ ['\n']) = true := by
    simp [jstr, List.isSuffixOf, List.isPrefixOf]
  rw [hsuf2, if_pos rfl]
  have hlen2 : (inner ++ ['\n']).length - 1 = inner.length := by simp
  rw [hlen2]
  exact List.take_left inner ['\n']

/-- The fence-stripping step applied to a completion wrapped in a plain
pair of markdown fences yields exactly the trimmed inner text. -/
theorem stripFences_of_wrapped (inner : JSStr) :
    stripFences ('`' :: '`' :: '`' :: '\n' :: (inner ++ ['\n', '`', '`', '`']))
      = jsTrim inner := by
  unfold stripFences
  rw [stripLeadingFence_wrapped, stripTrailingFence_wrapped]

/-- C9 (amended): the fence-stripping step removes exactly one leading
fence marker and one trailing fence marker and trims, so a completion
wrapped in ``` fences yields the trimmed inner text; the result has no
leading and no trailing triple backticks PROVIDED the trimmed inner text
does not itself start or end with ``` — the unconditional claim is
refuted by `stripFences_keeps_inner_fences_cex`, where the inner text
itself begins and ends with a fence. -/
theorem stripFences_no_fences_left (inner : JSStr)
    (h1 : (jstr "```").isPrefixOf (jsTrim inner) = false)
    (h2 : List.isSuffixOf (jstr "```") (jsTrim inner) = false) :
    stripFences ('`' :: '`' :: '`' :: '\n' :: (inner ++ ['\n', '`', '`', '`']))
      = jsTrim inner
    ∧ (jstr "```").isPrefixOf
        (stripFences ('`' :: '`' :: '`' :: '\n' :: (inner ++ ['\n', '`', '`', '`']))) = false
    ∧ List.isSuffixOf (jstr "```")
        (stripFences ('`' :: '`' :: '`' :: '\n' :: (inner ++ ['\n', '`', '`', '`']))) = false := by
  refine ⟨stripFences_of_wrapped inner, ?_, ?_⟩
  · rw [stripFences_of_wrapped inner]
    exact h1
  · rw [stripFences_of_wrapped inner]
    exact h2

/-- C9 witness: stripping `"```\nFeature: Login\n```"` yields
`"Feature: Login"`, with no fences left, via
`stripFences_no_fences_left`. -/
theorem stripFences_no_fences_left_witness :
    stripFences (jstr "```\nFeature: Login\n```") = jstr "Feature: Login"
    ∧ (jstr "```").isPrefixOf (stripFences (jstr "```\nFeature: Login\n```")) = false := by
  have h := stripFences_no_fences_left (jstr "Feature: Login") (by decide) (by decide)
  constructor
  · have := h.1
    simpa using this
  · have := h.2.1
    simpa using this

/-- C9 counterexample: the non-empty completion
`"```\n```x```\n```"` is wrapped in markdown code fences (it begins and
ends with ```), yet the fence-stripping step yields `"```x```"`, which
still has leading AND trailing triple backticks: only one fence is
removed at each edge. -/
theorem stripFences_keeps_inner_fences_cex :
    stripFences (jstr "```\n```x```\n```") = jstr "```x```"
    ∧ (jstr "```").isPrefixOf (jstr "```\n```x```\n```") = true
    ∧ List.isSuffixOf (jstr "```") (jstr "```\n```x```\n```") = true
    ∧ jstr "```\n```x```\n```" ≠ ([] : JSStr)
    ∧ (jstr "```").isPrefixOf (stripFences (jstr "```\n```x```\n```")) = true
    ∧ List.isSuffixOf (jstr "```") (stripFences (jstr "```\n```x```\n```")) = true := by
  refine ⟨by decide, by decide, by decide, by decide, by decide, by decide⟩

/-! ## Claim C3 -/

theorem getField_of_not_nullish (v : JVal) (k : String) (h : v.nullish = false) :
    v.getField k = .ok (v.fieldVal k) := by
  cases v <;> simp_all [JVal.nullish, JVal.getField]

/-- The code's guard `x && typeof x === "string" && x.length > 1000`
coincides with `longStr`: a string longer than the limit is non-empty,
hence truthy. -/
theorem truthy_isString_len_eq (v : JVal) :
    (v.truthy && v.isString && decide (MAX_STRING_LENGTH < v.lengthOfString)) = longStr v := by
  cases v with
  | str s =>
    simp only [JVal.truthy, JVal.isString, JVal.lengthOfString, longStr, Bool.and_true]
    cases hlen : decide (MAX_STRING_LENGTH < s.length) with
    | false => simp
    | true =>
      have : MAX_STRING_LENGTH < s.length := of_decide_eq_true hlen
      have hne : s ≠ [] := by
        intro hnil
        rw [hnil] at this
        simp [MAX_STRING_LENGTH] at this
      simp [hne]
  | _ => simp [JVal.truthy, JVal.isString, JVal.lengthOfString, longStr]

theorem checkTestCase_spec (tc : JVal) (h : tc.nullish = false) :
    checkTestCase tc =
      .ok (if longStr (tc.fieldVal "steps") then some msgStepTooLong
        else if longStr (tc.fieldVal "expected") then some msgExpectedTooLong
        else none) := by
  unfold checkTestCase
  rw [getField_of_not_nullish tc "steps" h, getField_of_not_nullish tc "expected" h]
  simp only [bind, Except.bind, truthy_isString_len_eq]
  cases h1 : longStr (tc.fieldVal "steps") <;>
    cases h2 : longStr (tc.fieldVal "expected") <;>
    simp [h1, h2, pure, Except.pure]

theorem checkTestCases_ok_none (l : List JVal)
    (h : ∀ tc ∈ l, tc.nullish = false ∧ hasLongField tc = false) :
    checkTestCases l = .ok none := by
  induction l with
  | nil => rfl
  | cons tc rest ih =>
    obtain ⟨hn, hf⟩ := h tc (List.mem_cons_self tc rest)
    have h1 : longStr (tc.fieldVal "steps") = false := by
      have := hf
      unfold hasLongField at this
      exact (Bool.or_eq_false_iff.mp this).1
    have h2 : longStr (tc.fieldVal "expected") = false := by
      have := hf
      unfold hasLongField at this
      exact (Bool.or_eq_false_iff.mp this).2
    unfold checkTestCases
    rw [checkTestCase_spec tc hn, h1, h2]
    simp only [if_false, Bool.false_eq_true]
    rw [ih (fun x hx => h x (List.mem_cons_of_mem tc hx))]
    rfl

theorem checkTestCases_ok_some (l : List JVal)
    (hnn : ∀ tc ∈ l, tc.nullish = false)
    (hex : ∃ tc ∈ l, hasLongField tc = true) :
    ∃ m, checkTestCases l = .ok (some m) ∧ (m = msgStepTooLong ∨ m = msgExpectedTooLong) := by
  induction l with
  | nil => simp at hex
  | cons tc rest ih =>
    have hn := hnn tc (List.mem_cons_self tc rest)
    unfold checkTestCases
    rw [checkTestCase_spec tc hn]
    simp only [bind, Except.bind]
    cases h1 : longStr (tc.fieldVal "steps") with
    | true =>
      exact ⟨msgStepTooLong, by simp [pure, Except.pure], Or.inl rfl⟩
    | false =>
      cases h2 : longStr (tc.fieldVal "expected") with
      | true =>
        exact ⟨msgExpectedTooLong, by simp [h1, pure, Except.pure], Or.inr rfl⟩
      | false =>
        have hrest : ∃ x ∈ rest, hasLongField x = true := by
          rcases hex with ⟨x, hx, hlx⟩
          rcases List.mem_cons.mp hx with rfl | hx'
          · exfalso
            unfold hasLongField at hlx
            rw [h1, h2] at hlx
            simp at hlx
          · exact ⟨x, hx', hlx⟩
        obtain ⟨m, hm, hor⟩ := ih (fun x hx => hnn x (List.mem_cons_of_mem tc hx)) hrest
        exact ⟨m, by simp [h1, h2, hm], hor⟩

/-- C3 (amended): the three checks are applied in the claimed order —
a missing / non-array / empty `testCases` gives the no-test-cases
message; then more than 50 entries gives the too-many message; then a
`steps`/`expected` string longer than 1000 characters gives one of the
two length-exceeded messages naming the limit; and otherwise the
validator reports no error PROVIDED no test-case element is nullish.
The original unconditional "otherwise returns no error" clause fails:
on a `null` test-case element the property access `tc.steps` throws
(see `validate_null_element_cex`), which the handler converts to a
generic 500. -/
theorem validateAutomationPayload_spec (body : JVal) :
    ((body.optField "testCases").isArray = false →
      validateAutomationPayload body = .ok (some msgNoTestCases))
    ∧ (body.optField "testCases" = .arr [] →
      validateAutomationPayload body = .ok (some msgNoTestCases))
    ∧ (∀ l, body.optField "testCases" = .arr l → MAX_TEST_CASES < l.length →
      validateAutomationPayload body = .ok (some msgTooMany))
    ∧ (∀ l, body.optField "testCases" = .arr l → 0 < l.length → l.length ≤ MAX_TEST_CASES →
      (∀ tc ∈ l, tc.nullish = false) → (∀ tc ∈ l, hasLongField tc = false) →
      validateAutomationPayload body = .ok none)
    ∧ (∀ l, body.optField "testCases" = .arr l → 0 < l.length → l.length ≤ MAX_TEST_CASES →
      (∀ tc ∈ l, tc.nullish = false) → (∃ tc ∈ l, hasLongField tc = true) →
      ∃ m, validateAutomationPayload body = .ok (some m)
        ∧ (m = msgStepTooLong ∨ m = msgExpectedTooLong)) := by
  refine ⟨?_, ?_, ?_, ?_, ?_⟩
  · intro h
    unfold validateAutomationPayload
    cases heq : body.optField "testCases" <;> simp_all [JVal.isArray]
  · intro h
    unfold validateAutomationPayload
    rw [h]
    simp
  · intro l h hlen
    unfold validateAutomationPayload
    rw [h]
    show (if l.length = 0 then Except.ok (some msgNoTestCases)
      else if MAX_TEST_CASES < l.length then Except.ok (some msgTooMany)
      else checkTestCases l) = _
    rw [if_neg (fun h0 => by rw [h0] at hlen; exact absurd hlen (by decide)), if_pos hlen]
  · intro l h h0 h50 hnn hnf
    unfold validateAutomationPayload
    rw [h]
    show (if l.length = 0 then Except.ok (some msgNoTestCases)
      else if MAX_TEST_CASES < l.length then Except.ok (some msgTooMany)
      else checkTestCases l) = _
    rw [if_neg (Nat.pos_iff_ne_zero.mp h0), if_neg (Nat.not_lt.mpr h50)]
    exact checkTestCases_ok_none l (fun tc htc => ⟨hnn tc htc, hnf tc htc⟩)
  · intro l h h0 h50 hnn hex
    have hval : validateAutomationPayload body = checkTestCases l := by
      unfold validateAutomationPayload
      rw [h]
      show (if l.length = 0 then Except.ok (some msgNoTestCases)
        else if MAX_TEST_CASES < l.length then Except.ok (some msgTooMany)
        else checkTestCases l) = _
      rw [if_neg (Nat.pos_iff_ne_zero.mp h0), if_neg (Nat.not_lt.mpr h50)]
    rw [hval]
    exact checkTestCases_ok_some l hnn hex

/-- C3 witness: a well-formed single test case validates to "no error",
and a 51-element `testCases` array draws the too-many message, both
through `validateAutomationPayload_spec`. -/
theorem validateAutomationPayload_spec_witness :
    validateAutomationPayload (JVal.obj [("testCases",
      JVal.arr [JVal.obj [("steps", JVal.str (jstr "click login")),
        ("expected", JVal.str (jstr "dashboard shown"))]])]) = .ok none
    ∧ validateAutomationPayload (JVal.obj [("testCases",
      JVal.arr (List.replicate 51 (JVal.obj [])))]) = .ok (some msgTooMany) := by
  constructor
  · exact (validateAutomationPayload_spec _).2.2.2.1 _ rfl (by decide) (by decide)
      (by intro tc htc; rw [List.mem_singleton] at htc; subst htc; rfl)
      (by intro tc htc; rw [List.mem_singleton] at htc; subst htc; rfl)
  · exact (validateAutomationPayload_spec _).2.2.1 _ rfl
      (by simp [MAX_TEST_CASES])

/-- C3 counterexample: on the body `{"testCases":[null]}` — a non-empty
array of at most 50 entries with no oversized string field — the claim
demands "no error", but the validator instead throws a TypeError at
`tc.steps` (modelled as `Except.error ()`). -/
theorem validate_null_element_cex :
    validateAutomationPayload (JVal.obj [("testCases", JVal.arr [JVal.null])]) = .error ()
    ∧ validateAutomationPayload (JVal.obj [("testCases", JVal.arr [JVal.null])]) ≠ .ok none := by
  constructor
  · rfl
  · intro h
    have h0 : validateAutomationPayload (JVal.obj [("testCases", JVal.arr [JVal.null])])
        = .error () := rfl
    rw [h0] at h
    exact Except.noConfusion h

/-! ## Claims C4 and C8: sanitizer support lemmas -/

theorem sanitizeField_ok (tc : JVal) (f : String) (bound : Nat) (h : tc.nullish = false) :
    sanitizeField tc f bound
      = .ok ((jsToString (jsOr (tc.fieldVal f) (.str []))).take bound) := by
  unfold sanitizeField
  rw [getField_of_not_nullish tc f h]
  rfl

theorem sanitizeTestCase_ok (tc : JVal) (h : tc.nullish = false) :
    sanitizeTestCase tc = .ok
      ⟨(jsToString (jsOr (tc.fieldVal "id") (.str []))).take 100,
       (jsToString (jsOr (tc.fieldVal "description") (.str []))).take MAX_STRING_LENGTH,
       (jsToString (jsOr (tc.fieldVal "steps") (.str []))).take MAX_STRING_LENGTH,
       (jsToString (jsOr (tc.fieldVal "expected") (.str []))).take MAX_STRING_LENGTH⟩ := by
  unfold sanitizeTestCase
  rw [sanitizeField_ok tc "id" 100 h, sanitizeField_ok tc "description" MAX_STRING_LENGTH h,
    sanitizeField_ok tc "steps" MAX_STRING_LENGTH h,
    sanitizeField_ok tc "expected" MAX_STRING_LENGTH h]
  rfl

theorem sanitizeTestCase_nullish (tc : JVal) (h : tc.nullish = true) :
    sanitizeTestCase tc = .error () := by
  cases tc <;> first
    | rfl
    | simp [JVal.nullish] at h

/-- Whatever succeeds through `sanitizeTestCase` has all four fields
within the length bounds. -/
theorem sanitizeTestCase_bounds (tc : JVal) (stc : SanitizedTestCase)
    (h : sanitizeTestCase tc = .ok stc) :
    stc.id.length ≤ 100 ∧ stc.description.length ≤ MAX_STRING_LENGTH
    ∧ stc.steps.length ≤ MAX_STRING_LENGTH ∧ stc.expected.length ≤ MAX_STRING_LENGTH := by
  cases hn : tc.nullish with
  | true =>
    rw [sanitizeTestCase_nullish tc hn] at h
    exact Except.noConfusion h
  | false =>
    rw [sanitizeTestCase_ok tc hn] at h
    cases h
    exact ⟨List.length_take_le 100 _, List.length_take_le MAX_STRING_LENGTH _,
      List.length_take_le MAX_STRING_LENGTH _, List.length_take_le MAX_STRING_LENGTH _⟩

theorem mapM_sanitize_bounds (l : List JVal) :
    ∀ (ts : List SanitizedTestCase), l.mapM sanitizeTestCase = .ok ts →
    ts.length = l.length
    ∧ ∀ stc ∈ ts, stc.id.length ≤ 100 ∧ stc.description.length ≤ MAX_STRING_LENGTH
      ∧ stc.steps.length ≤ MAX_STRING_LENGTH ∧ stc.expected.length ≤ MAX_STRING_LENGTH := by
  induction l with
  | nil =>
    intro ts h
    simp only [List.mapM_nil, pure, Except.pure] at h
    cases h
    exact ⟨rfl, by intro stc hstc; exact absurd hstc (List.not_mem_nil stc)⟩
  | cons tc rest ih =>
    intro ts h
    rw [List.mapM_cons] at h
    cases hf : sanitizeTestCase tc with
    | error e =>
      rw [hf] at h
      simp [bind, Except.bind] at h
    | ok b =>
      rw [hf] at h
      cases hr : rest.mapM sanitizeTestCase with
      | error e =>
        rw [hr] at h
        simp [bind, Except.bind] at h
      | ok bs =>
        rw [hr] at h
        simp only [bind, Except.bind, pure, Except.pure, Except.ok.injEq] at h
        subst h
        obtain ⟨hlen, hall⟩ := ih bs hr
        refine ⟨by simp [hlen], ?_⟩
        intro stc hstc
        rcases List.mem_cons.mp hstc with rfl | hstc'
        · exact sanitizeTestCase_bounds tc stc hf
        · exact hall stc hstc'

theorem sliceAndMapTestCases_arr (tcv : JVal) (l : List JVal)
    (hv : jsOr tcv (JVal.arr []) = JVal.arr l) :
    sliceAndMapTestCases tcv = (l.take MAX_TEST_CASES).mapM sanitizeTestCase := by
  unfold sliceAndMapTestCases
  rw [hv]

theorem sliceAndMapTestCases_not_arr (tcv : JVal) (v : JVal)
    (hv : jsOr tcv (JVal.arr []) = v) (ha : v.isArray = false) :
    sliceAndMapTestCases tcv = .error () := by
  unfold sliceAndMapTestCases
  rw [hv]
  cases v <;> first
    | rfl
    | simp [JVal.isArray] at ha

/-- Shared well-formedness of every successful sanitizer run. -/
theorem sanitize_bounds (body : JVal) (r : GenerationRequest)
    (h : sanitizePayload body = .ok r) :
    r.testCases.length ≤ MAX_TEST_CASES
    ∧ (∀ stc ∈ r.testCases, stc.id.length ≤ 100
      ∧ stc.description.length ≤ MAX_STRING_LENGTH
      ∧ stc.steps.length ≤ MAX_STRING_LENGTH
      ∧ stc.expected.length ≤ MAX_STRING_LENGTH)
    ∧ (r.locators = JVal.obj [] ∨ (r.locators.truthy = true ∧ r.locators.typeofObject = true))
    ∧ (r.testData = JVal.obj [] ∨ (r.testData.truthy = true ∧ r.testData.typeofObject = true)) := by
  cases hn : body.nullish with
  | true =>
    unfold sanitizePayload at h
    cases body <;> simp_all [JVal.nullish, JVal.getField, bind, Except.bind]
  | false =>
    unfold sanitizePayload at h
    rw [getField_of_not_nullish body "testCases" hn,
      getField_of_not_nullish body "locators" hn,
      getField_of_not_nullish body "testData" hn] at h
    simp only [bind, Except.bind] at h
    cases hv : jsOr (body.fieldVal "testCases") (JVal.arr []) with
    | arr l =>
      rw [sliceAndMapTestCases_arr (body.fieldVal "testCases") l hv] at h
      cases hm : (l.take MAX_TEST_CASES).mapM sanitizeTestCase with
      | error e =>
        rw [hm] at h
        exact Except.noConfusion h
      | ok ts =>
        rw [hm] at h
        replace h : Except.ok (⟨ts,
            if ((body.fieldVal "locators").truthy
                && (body.fieldVal "locators").typeofObject) = true
              then body.fieldVal "locators" else JVal.obj [],
            if ((body.fieldVal "testData").truthy
                && (body.fieldVal "testData").typeofObject) = true
              then body.fieldVal "testData" else JVal.obj []⟩ : GenerationRequest)
            = Except.ok r := h
        cases h
        obtain ⟨hlen, hall⟩ := mapM_sanitize_bounds (l.take MAX_TEST_CASES) ts hm
        refine ⟨?_, hall, ?_, ?_⟩
        · rw [hlen]
          exact List.length_take_le MAX_TEST_CASES l
        · by_cases hc : ((body.fieldVal "locators").truthy
              && (body.fieldVal "locators").typeofObject) = true
          · rw [if_pos hc]
            exact Or.inr ⟨(Bool.and_eq_true _ _ |>.mp hc).1, (Bool.and_eq_true _ _ |>.mp hc).2⟩
          · rw [if_neg hc]
            exact Or.inl rfl
        · by_cases hc : ((body.fieldVal "testData").truthy
              && (body.fieldVal "testData").typeofObject) = true
          · rw [if_pos hc]
            exact Or.inr ⟨(Bool.and_eq_true _ _ |>.mp hc).1, (Bool.and_eq_true _ _ |>.mp hc).2⟩
          · rw [if_neg hc]
            exact Or.inl rfl
    | null => rw [sliceAndMapTestCases_not_arr _ _ hv (by rfl)] at h; exact Except.noConfusion h
    | undefinedV => rw [sliceAndMapTestCases_not_arr _ _ hv (by rfl)] at h; exact Except.noConfusion h
    | bool b => rw [sliceAndMapTestCases_not_arr _ _ hv (by rfl)] at h; exact Except.noConfusion h
    | num n => rw [sliceAndMapTestCases_not_arr _ _ hv (by rfl)] at h; exact Except.noConfusion h
    | str s => rw [sliceAndMapTestCases_not_arr _ _ hv (by rfl)] at h; exact Except.noConfusion h
    | obj fs => rw [sliceAndMapTestCases_not_arr _ _ hv (by rfl)] at h; exact Except.noConfusion h

/-- C4 (amended): whenever the Sanitizer succeeds, it returns a
well-formed `GenerationRequest`: at most 50 test cases, each field
within its length bound (100 for `id`, 1000 for the others), and each of
`locators`/`testData` either substituted by the empty mapping or passed
through as a truthy `typeof === "object"` value.  Three points of the
original claim fail on the code: the Sanitizer is not infallible (it
throws on a nullish body or test-case element — see
`sanitize_not_total_cex` under C8); truthy non-string field values are
coerced by `String(...)` rather than replaced by the empty string; and a
truthy ARRAY passes the `typeof === "object"` test, so `locators` and
`testData` are passed through even when they are not plain key-value
mappings — see `sanitize_coercion_cex`. -/
theorem sanitizePayload_wellformed (body : JVal) (r : GenerationRequest)
    (h : sanitizePayload body = .ok r) :
    r.testCases.length ≤ MAX_TEST_CASES
    ∧ (∀ stc ∈ r.testCases, stc.id.length ≤ 100
      ∧ stc.description.length ≤ MAX_STRING_LENGTH
      ∧ stc.steps.length ≤ MAX_STRING_LENGTH
      ∧ stc.expected.length ≤ MAX_STRING_LENGTH)
    ∧ (r.locators = JVal.obj [] ∨ (r.locators.truthy = true ∧ r.locators.typeofObject = true))
    ∧ (r.testData = JVal.obj [] ∨ (r.testData.truthy = true ∧ r.testData.typeofObject = true)) :=
  sanitize_bounds body r h

/-- C4 witness: a concrete one-test-case body sanitizes successfully and
`sanitizePayload_wellformed` applies to its output. -/
theorem sanitizePayload_wellformed_witness :
    (GenerationRequest.mk [⟨jstr "TC1", [], [], []⟩] (JVal.obj [])
      (JVal.obj [])).testCases.length ≤ MAX_TEST_CASES
    ∧ ∀ stc ∈ (GenerationRequest.mk [⟨jstr "TC1", [], [], []⟩] (JVal.obj [])
      (JVal.obj [])).testCases, stc.id.length ≤ 100 := by
  have h := sanitizePayload_wellformed
    (JVal.obj [("testCases", JVal.arr [JVal.obj [("id", JVal.str (jstr "TC1"))]])])
    ⟨[⟨jstr "TC1", [], [], []⟩], JVal.obj [], JVal.obj []⟩ (by rfl)
  exact ⟨h.1, fun stc hstc => (h.2.1 stc hstc).1⟩

/-- C4 counterexample: on the body
`{"testCases":[{"id":5}], "locators":["x"]}` the Sanitizer coerces the
truthy non-string `id` to the string `"5"` (the claim demands the empty
string), and passes the array `["x"]` through as `locators` (the claim
demands the empty mapping, an array not being a plain key-value
mapping). -/
theorem sanitize_coercion_cex :
    sanitizePayload (JVal.obj [("testCases", JVal.arr [JVal.obj [("id", JVal.num 5)]]),
        ("locators", JVal.arr [JVal.str (jstr "x")])])
      = .ok ⟨[⟨jstr "5", [], [], []⟩], JVal.arr [JVal.str (jstr "x")], JVal.obj []⟩
    ∧ jstr "5" ≠ ([] : JSStr)
    ∧ JVal.arr [JVal.str (jstr "x")] ≠ JVal.obj [] := by
  refine ⟨rfl, by decide, ?_⟩
  intro h
  exact JVal.noConfusion h

/-! ## Claim C8 -/

theorem jsToString_jsOr_str (s : JSStr) : jsToString (jsOr (.str s) (.str [])) = s := by
  unfold jsOr
  by_cases hs : s = []
  · subst hs
    rfl
  · rw [if_pos]
    · rfl
    · simp [JVal.truthy, hs]

theorem sanitizeTestCase_roundtrip (stc : SanitizedTestCase)
    (h1 : stc.id.length ≤ 100) (h2 : stc.description.length ≤ MAX_STRING_LENGTH)
    (h3 : stc.steps.length ≤ MAX_STRING_LENGTH) (h4 : stc.expected.length ≤ MAX_STRING_LENGTH) :
    sanitizeTestCase stc.toJVal = .ok stc := by
  rw [sanitizeTestCase_ok stc.toJVal (by rfl)]
  have fid : stc.toJVal.fieldVal "id" = .str stc.id := rfl
  have fdesc : stc.toJVal.fieldVal "description" = .str stc.description := rfl
  have fsteps : stc.toJVal.fieldVal "steps" = .str stc.steps := rfl
  have fexp : stc.toJVal.fieldVal "expected" = .str stc.expected := rfl
  rw [fid, fdesc, fsteps, fexp, jsToString_jsOr_str, jsToString_jsOr_str,
    jsToString_jsOr_str, jsToString_jsOr_str,
    List.take_of_length_le h1, List.take_of_length_le h2, List.take_of_length_le h3,
    List.take_of_length_le h4]

theorem mapM_sanitize_roundtrip (ts : List SanitizedTestCase)
    (hb : ∀ stc ∈ ts, stc.id.length ≤ 100 ∧ stc.description.length ≤ MAX_STRING_LENGTH
      ∧ stc.steps.length ≤ MAX_STRING_LENGTH ∧ stc.expected.length ≤ MAX_STRING_LENGTH) :
    (ts.map SanitizedTestCase.toJVal).mapM sanitizeTestCase = .ok ts := by
  induction ts with
  | nil => rfl
  | cons stc rest ih =>
    obtain ⟨b1, b2, b3, b4⟩ := hb stc (List.mem_cons_self stc rest)
    rw [List.map_cons, List.mapM_cons, sanitizeTestCase_roundtrip stc b1 b2 b3 b4,
      ih (fun x hx => hb x (List.mem_cons_of_mem stc hx))]
    rfl

/-- C8 (amended): the Sanitizer is idempotent but not total.  Whenever
one run succeeds, feeding its output back in succeeds and returns the
very same bounded-length object.  Totality fails: the Sanitizer throws
on a nullish body (`body.testCases` is a TypeError) and on nullish
test-case elements — see `sanitize_not_total_cex`. -/
theorem sanitizePayload_idempotent (body : JVal) (r : GenerationRequest)
    (h : sanitizePayload body = .ok r) :
    sanitizePayload r.toJVal = .ok r := by
  obtain ⟨hlen, hall, hloc, htd⟩ := sanitize_bounds body r h
  obtain ⟨ts, locators, testData⟩ := r
  unfold sanitizePayload
  rw [getField_of_not_nullish _ "testCases" (by rfl),
    getField_of_not_nullish _ "locators" (by rfl),
    getField_of_not_nullish _ "testData" (by rfl)]
  simp only [bind, Except.bind]
  have ftc : (GenerationRequest.mk ts locators testData).toJVal.fieldVal "testCases"
      = .arr (ts.map SanitizedTestCase.toJVal) := rfl
  have floc : (GenerationRequest.mk ts locators testData).toJVal.fieldVal "locators"
      = locators := rfl
  have ftd : (GenerationRequest.mk ts locators testData).toJVal.fieldVal "testData"
      = testData := rfl
  rw [ftc, floc, ftd]
  rw [sliceAndMapTestCases_arr _ (ts.map SanitizedTestCase.toJVal) (by rfl)]
  have htake : (ts.map SanitizedTestCase.toJVal).take MAX_TEST_CASES
      = ts.map SanitizedTestCase.toJVal := by
    apply List.take_of_length_le
    rw [List.length_map]
    exact hlen
  rw [htake, mapM_sanitize_roundtrip ts hall]
  have hloc' : (locators.truthy && locators.typeofObject) = true := by
    rcases hloc with hl | ⟨hl1, hl2⟩
    · subst hl
      rfl
    · rw [hl1, hl2]
      rfl
  have htd' : (testData.truthy && testData.typeofObject) = true := by
    rcases htd with hl | ⟨hl1, hl2⟩
    · subst hl
      rfl
    · rw [hl1, hl2]
      rfl
  rw [hloc', htd']
  rfl

/-- C8 witness: a successful run on a concrete body, whose output
re-sanitizes to itself through `sanitizePayload_idempotent`. -/
theorem sanitizePayload_idempotent_witness :
    sanitizePayload (GenerationRequest.toJVal
      ⟨[⟨jstr "TC1", [], [], []⟩], JVal.obj [], JVal.obj []⟩)
      = .ok ⟨[⟨jstr "TC1", [], [], []⟩], JVal.obj [], JVal.obj []⟩ :=
  sanitizePayload_idempotent
    (JVal.obj [("testCases", JVal.arr [JVal.obj [("id", JVal.str (jstr "TC1"))]])])
    ⟨[⟨jstr "TC1", [], [], []⟩], JVal.obj [], JVal.obj []⟩ (by rfl)

/-- C8/C4 counterexample for totality: on the body `null` (a valid JSON
request body), the Sanitizer does not succeed — `body.testCases` throws
a TypeError. -/
theorem sanitize_not_total_cex :
    sanitizePayload JVal.null = .error ()
    ∧ ∀ r : GenerationRequest, sanitizePayload JVal.null ≠ .ok r := by
  refine ⟨rfl, ?_⟩
  intro r h
  have h0 : sanitizePayload JVal.null = .error () := rfl
  rw [h0] at h
  exact Except.noConfusion h

/-! ## Handler support lemmas -/

/-- Shared helper: the extractor yields the empty string whenever either
marker is absent. -/
theorem extractSection_empty_of_unmatched (text s e : JSStr)
    (h : ¬ occursIn s text ∨ ¬ occursIn e text) : extractSection text s e = [] := by
  unfold extractSection
  rcases h with h | h
  · rw [indexOf_none_of_not_occursIn s text h]
  · rw [indexOf_none_of_not_occursIn e text h]
    cases listIndexOf? s text <;> rfl

theorem checkTestCase_nullish (tc : JVal) (h : tc.nullish = true) :
    checkTestCase tc = .error () := by
  cases tc <;> first
    | rfl
    | simp [JVal.nullish] at h

theorem checkTestCases_ok_none_not_nullish :
    ∀ l : List JVal, checkTestCases l = .ok none → ∀ tc ∈ l, tc.nullish = false := by
  intro l
  induction l with
  | nil =>
    intro _ tc htc
    exact absurd htc (List.not_mem_nil tc)
  | cons tc0 rest ih =>
    intro h tc htc
    unfold checkTestCases at h
    simp only [bind, Except.bind] at h
    cases hf : checkTestCase tc0 with
    | error e =>
      rw [hf] at h
      exact Except.noConfusion h
    | ok v =>
      rw [hf] at h
      cases v with
      | some m =>
        replace h : Except.ok (some m) = Except.ok (none : Option JSStr) := h
        injection h with h'
        exact Option.noConfusion h'
      | none =>
        replace h : checkTestCases rest = .ok none := h
        rcases List.mem_cons.mp htc with rfl | htc'
        · cases hn : tc.nullish with
          | false => rfl
          | true =>
            rw [checkTestCase_nullish tc hn] at hf
            exact Except.noConfusion hf
        · exact ih h tc htc'

theorem mapM_ok_of_not_nullish :
    ∀ l : List JVal, (∀ tc ∈ l, tc.nullish = false) →
      ∃ ts, l.mapM sanitizeTestCase = .ok ts := by
  intro l
  induction l with
  | nil =>
    intro _
    exact ⟨[], rfl⟩
  | cons tc rest ih =>
    intro h
    obtain ⟨ts, hts⟩ := ih (fun x hx => h x (List.mem_cons_of_mem tc hx))
    rw [List.mapM_cons, sanitizeTestCase_ok tc (h tc (List.mem_cons_self tc rest)), hts]
    exact ⟨_, rfl⟩

theorem optField_eq_fieldVal (body : JVal) (k : String) :
    body.optField k = body.fieldVal k := by
  cases body <;> rfl

/-- A body that validates cleanly has a non-empty `testCases` array of at
most 50 non-nullish elements. -/
theorem validate_ok_arr (body : JVal) (h : validateAutomationPayload body = .ok none) :
    ∃ l, body.optField "testCases" = .arr l ∧ 0 < l.length ∧ l.length ≤ MAX_TEST_CASES
      ∧ checkTestCases l = .ok none := by
  unfold validateAutomationPayload at h
  cases hv : body.optField "testCases" with
  | arr l =>
    rw [hv] at h
    replace h : (if l.length = 0 then Except.ok (some msgNoTestCases)
        else if MAX_TEST_CASES < l.length then Except.ok (some msgTooMany)
        else checkTestCases l) = .ok none := h
    split at h
    · injection h with h'
      exact Option.noConfusion h'
    · split at h
      · injection h with h'
        exact Option.noConfusion h'
      · rename_i h0 h50
        exact ⟨l, rfl, Nat.pos_of_ne_zero h0, Nat.not_lt.mp h50, h⟩
  | null =>
    rw [hv] at h
    replace h : Except.ok (some msgNoTestCases) = Except.ok (none : Option JSStr) := h
    injection h with h'
    exact Option.noConfusion h'
  | undefinedV =>
    rw [hv] at h
    replace h : Except.ok (some msgNoTestCases) = Except.ok (none : Option JSStr) := h
    injection h with h'
    exact Option.noConfusion h'
  | bool b =>
    rw [hv] at h
    replace h : Except.ok (some msgNoTestCases) = Except.ok (none : Option JSStr) := h
    injection h with h'
    exact Option.noConfusion h'
  | num n =>
    rw [hv] at h
    replace h : Except.ok (some msgNoTestCases) = Except.ok (none : Option JSStr) := h
    injection h with h'
    exact Option.noConfusion h'
  | str s =>
    rw [hv] at h
    replace h : Except.ok (some msgNoTestCases) = Except.ok (none : Option JSStr) := h
    injection h with h'
    exact Option.noConfusion h'
  | obj fs =>
    rw [hv] at h
    replace h : Except.ok (some msgNoTestCases) = Except.ok (none : Option JSStr) := h
    injection h with h'
    exact Option.noConfusion h'

/-- A body that validates cleanly always sanitizes successfully: the
handlers never hit the sanitizer's failure modes after validation has
passed. -/
theorem sanitize_ok_of_validate_ok (body : JVal)
    (h : validateAutomationPayload body = .ok none) :
    ∃ r, sanitizePayload body = .ok r := by
  obtain ⟨l, hv, h0, h50, hchk⟩ := validate_ok_arr body h
  have hnb : body.nullish = false := by
    cases body with
    | null => exact JVal.noConfusion hv
    | undefinedV => exact JVal.noConfusion hv
    | _ => rfl
  have hfv : body.fieldVal "testCases" = .arr l := by
    rw [← optField_eq_fieldVal body "testCases"]
    exact hv
  have hnn := checkTestCases_ok_none_not_nullish l hchk
  obtain ⟨ts, hts⟩ := mapM_ok_of_not_nullish (l.take MAX_TEST_CASES)
    (fun tc htc => hnn tc (List.take_subset MAX_TEST_CASES l htc))
  refine ⟨⟨ts,
    if ((body.fieldVal "locators").truthy && (body.fieldVal "locators").typeofObject) = true
      then body.fieldVal "locators" else JVal.obj [],
    if ((body.fieldVal "testData").truthy && (body.fieldVal "testData").typeofObject) = true
      then body.fieldVal "testData" else JVal.obj []⟩, ?_⟩
  unfold sanitizePayload
  rw [getField_of_not_nullish _ "testCases" hnb, getField_of_not_nullish _ "locators" hnb,
    getField_of_not_nullish _ "testData" hnb]
  simp only [bind, Except.bind]
  rw [sliceAndMapTestCases_arr _ l (by rw [hfv]; rfl), hts]
  rfl

/-! ## Claim C7 -/

/-- C7: every request the Validator rejects is answered with the 400
error response immediately, with `calledGateway = false` — no gateway
call occurs, whatever the credential or the (never consulted) upstream
behaviour would have been. -/
theorem cypress_validation_precedes_gateway (body : JVal) (key : Option String)
    (up : Upstream) (m : JSStr)
    (h : validateAutomationPayload body = .ok (some m)) :
    cypressHandler (some body) key up = ⟨⟨400, .errMsg m⟩, false⟩ := by
  simp [cypressHandler, h]

/-- C7 witness: an empty-object body fails validation and yields the 400
response with no gateway call, through
`cypress_validation_precedes_gateway`. -/
theorem cypress_validation_precedes_gateway_witness :
    cypressHandler (some (JVal.obj [])) (some "key") Upstream.netErr
      = ⟨⟨400, .errMsg msgNoTestCases⟩, false⟩ :=
  cypress_validation_precedes_gateway (JVal.obj []) (some "key") Upstream.netErr
    msgNoTestCases (by rfl)

/-! ## Claim C5 -/

/-- C5: the Cypress handler returns exactly one status code per request:
400 when validation fails; 500 with no gateway call when the credential
is missing or empty; 429 and 402 mirrored from the upstream status; 500
for any other non-2xx upstream status, for an unparseable or
content-free or empty-after-trimming completion, and for any exception
(unparseable request body, validator TypeError); and 200 carrying the
three regex-extracted artifacts otherwise. -/
theorem cypress_status_mapping (body : JVal) (key : Option String) (up : Upstream) :
    (∀ m, validateAutomationPayload body = .ok (some m) →
      (cypressHandler (some body) key up).response.status = 400
      ∧ (cypressHandler (some body) key up).calledGateway = false)
    ∧ (validateAutomationPayload body = .error () →
      (cypressHandler (some body) key up).response.status = 500
      ∧ (cypressHandler (some body) key up).calledGateway = false)
    ∧ ((cypressHandler none key up).response.status = 500
      ∧ (cypressHandler none key up).calledGateway = false)
    ∧ (validateAutomationPayload body = .ok none → keyConfigured key = false →
      (cypressHandler (some body) key up).response.status = 500
      ∧ (cypressHandler (some body) key up).calledGateway = false)
    ∧ (validateAutomationPayload body = .ok none → keyConfigured key = true →
      up = .netErr → (cypressHandler (some body) key up).response.status = 500)
    ∧ (validateAutomationPayload body = .ok none → keyConfigured key = true →
      ∀ rb, up = .resp 429 rb → (cypressHandler (some body) key up).response.status = 429)
    ∧ (validateAutomationPayload body = .ok none → keyConfigured key = true →
      ∀ rb, up = .resp 402 rb → (cypressHandler (some body) key up).response.status = 402)
    ∧ (validateAutomationPayload body = .ok none → keyConfigured key = true →
      ∀ st rb, up = .resp st rb → respOk st = false → st ≠ 429 → st ≠ 402 →
      (cypressHandler (some body) key up).response.status = 500)
    ∧ (validateAutomationPayload body = .ok none → keyConfigured key = true →
      ∀ st, up = .resp st (.error ()) → respOk st = true →
      (cypressHandler (some body) key up).response.status = 500)
    ∧ (validateAutomationPayload body = .ok none → keyConfigured key = true →
      ∀ st data, up = .resp st (.ok data) → respOk st = true →
      extractContent data = .error () →
      (cypressHandler (some body) key up).response.status = 500)
    ∧ (validateAutomationPayload body = .ok none → keyConfigured key = true →
      ∀ st data, up = .resp st (.ok data) → respOk st = true →
      extractContent data = .ok none →
      (cypressHandler (some body) key up).response.status = 500)
    ∧ (validateAutomationPayload body = .ok none → keyConfigured key = true →
      ∀ st data, up = .resp st (.ok data) → respOk st = true →
      extractContent data = .ok (some []) →
      (cypressHandler (some body) key up).response.status = 500)
    ∧ (validateAutomationPayload body = .ok none → keyConfigured key = true →
      ∀ st data c, up = .resp st (.ok data) → respOk st = true →
      extractContent data = .ok (some c) → c ≠ [] →
      cypressHandler (some body) key up = ⟨⟨200, .artifacts
        (regexSection c (jstr "===PAGE_OBJECT_START===") (jstr "===PAGE_OBJECT_END==="))
        (regexSection c (jstr "===TEST_FILE_START===") (jstr "===TEST_FILE_END==="))
        (regexSection c (jstr "===DATA_FILE_START===") (jstr "===DATA_FILE_END==="))⟩,
        true⟩) := by
  refine ⟨?_, ?_, ?_, ?_, ?_, ?_, ?_, ?_, ?_, ?_, ?_, ?_, ?_⟩
  · intro m hval
    simp [cypressHandler, hval]
  · intro hval
    simp [cypressHandler, hval]
  · simp [cypressHandler]
  · intro hval hkey
    obtain ⟨r, hr⟩ := sanitize_ok_of_validate_ok body hval
    simp [cypressHandler, hval, hr, hkey]
  · intro hval hkey hup
    subst hup
    obtain ⟨r, hr⟩ := sanitize_ok_of_validate_ok body hval
    simp [cypressHandler, hval, hr, hkey]
  · intro hval hkey rb hup
    subst hup
    obtain ⟨r, hr⟩ := sanitize_ok_of_validate_ok body hval
    simp [cypressHandler, hval, hr, hkey, respOk]
  · intro hval hkey rb hup
    subst hup
    obtain ⟨r, hr⟩ := sanitize_ok_of_validate_ok body hval
    simp [cypressHandler, hval, hr, hkey, respOk]
  · intro hval hkey st rb hup hnok h429 h402
    subst hup
    obtain ⟨r, hr⟩ := sanitize_ok_of_validate_ok body hval
    cases rb with
    | error e => simp [cypressHandler, hval, hr, hkey, hnok, h429, h402]
    | ok data => simp [cypressHandler, hval, hr, hkey, hnok, h429, h402]
  · intro hval hkey st hup hok
    subst hup
    obtain ⟨r, hr⟩ := sanitize_ok_of_validate_ok body hval
    simp [cypressHandler, hval, hr, hkey, hok]
  · intro hval hkey st data hup hok hc
    subst hup
    obtain ⟨r, hr⟩ := sanitize_ok_of_validate_ok body hval
    simp [cypressHandler, hval, hr, hkey, hok, hc]
  · intro hval hkey st data hup hok hc
    subst hup
    obtain ⟨r, hr⟩ := sanitize_ok_of_validate_ok body hval
    simp [cypressHandler, hval, hr, hkey, hok, hc]
  · intro hval hkey st data hup hok hc
    subst hup
    obtain ⟨r, hr⟩ := sanitize_ok_of_validate_ok body hval
    simp [cypressHandler, hval, hr, hkey, hok, hc]
  · intro hval hkey st data c hup hok hc hne
    subst hup
    obtain ⟨r, hr⟩ := sanitize_ok_of_validate_ok body hval
    simp [cypressHandler, hval, hr, hkey, hok, hc, hne]

/-- C5 witness: with a valid body but no credential the handler answers
500 without calling the gateway; with a credential and an upstream 429
it mirrors the 429 — both through `cypress_status_mapping`. -/
theorem cypress_status_mapping_witness :
    (cypressHandler (some (JVal.obj [("testCases", JVal.arr [JVal.obj [("steps",
      JVal.str (jstr "open page"))]])])) none Upstream.netErr).response.status = 500
    ∧ (cypressHandler (some (JVal.obj [("testCases", JVal.arr [JVal.obj [("steps",
      JVal.str (jstr "open page"))]])])) none Upstream.netErr).calledGateway = false
    ∧ (cypressHandler (some (JVal.obj [("testCases", JVal.arr [JVal.obj [("steps",
      JVal.str (jstr "open page"))]])])) (some "k")
      (Upstream.resp 429 (.ok (JVal.obj [])))).response.status = 429 := by
  have h1 := (cypress_status_mapping (JVal.obj [("testCases", JVal.arr [JVal.obj [("steps",
    JVal.str (jstr "open page"))]])]) none Upstream.netErr).2.2.2.1 (by rfl) (by rfl)
  have h2 := (cypress_status_mapping (JVal.obj [("testCases", JVal.arr [JVal.obj [("steps",
    JVal.str (jstr "open page"))]])]) (some "k")
    (Upstream.resp 429 (.ok (JVal.obj [])))).2.2.2.2.2.1 (by rfl) (by rfl)
    (.ok (JVal.obj [])) rfl
  exact ⟨h1.1, h1.2, h2⟩

/-! ## Claim C6 -/

/-- C6: when the upstream completion contains none of the three expected
marker pairs (for each pair, at least one of its two markers does not
occur), the Robot Framework handler still answers 200, carrying the
entire raw completion text as `testFile` and the two synthesized
placeholder strings as `pageObject` and `dataFile` — never a 500. -/
theorem robot_marker_fallback (body : JVal) (key : Option String) (st : Nat)
    (data : JVal) (c : JSStr)
    (hval : validateAutomationPayload body = .ok none)
    (hkey : keyConfigured key = true)
    (hok : respOk st = true)
    (hc : extractContent data = .ok (some c))
    (hne : c ≠ [])
    (h1 : ¬ occursIn (jstr "===ROBOT_TEST_START===") c
      ∨ ¬ occursIn (jstr "===ROBOT_TEST_END===") c)
    (h2 : ¬ occursIn (jstr "===KEYWORDS_START===") c
      ∨ ¬ occursIn (jstr "===KEYWORDS_END===") c)
    (h3 : ¬ occursIn (jstr "===DATA_FILE_START===") c
      ∨ ¬ occursIn (jstr "===DATA_FILE_END===") c) :
    robotHandler (some body) key (.resp st (.ok data))
      = ⟨⟨200, .artifacts robotFallbackPageObject c robotFallbackDataFile⟩, true⟩ := by
  obtain ⟨r, hr⟩ := sanitize_ok_of_validate_ok body hval
  have e1 := extractSection_empty_of_unmatched c
    (jstr "===ROBOT_TEST_START===") (jstr "===ROBOT_TEST_END===") h1
  have e2 := extractSection_empty_of_unmatched c
    (jstr "===KEYWORDS_START===") (jstr "===KEYWORDS_END===") h2
  have e3 := extractSection_empty_of_unmatched c
    (jstr "===DATA_FILE_START===") (jstr "===DATA_FILE_END===") h3
  simp [robotHandler, hval, hr, hkey, hok, hc, hne, e1, e2, e3]

/-- C6 witness: a marker-free completion `"no markers here"` goes
through `robot_marker_fallback` on a concrete valid request. -/
theorem robot_marker_fallback_witness :
    robotHandler (some (JVal.obj [("testCases", JVal.arr [JVal.obj
        [("steps", JVal.str (jstr "press start"))]])]))
      (some "k")
      (.resp 200 (.ok (JVal.obj [("choices", JVal.arr [JVal.obj [("message",
        JVal.obj [("content", JVal.str (jstr "no markers here"))])]])])))
      = ⟨⟨200, .artifacts robotFallbackPageObject (jstr "no markers here")
          robotFallbackDataFile⟩, true⟩ :=
  robot_marker_fallback
    (JVal.obj [("testCases", JVal.arr [JVal.obj [("steps", JVal.str (jstr "press start"))]])])
    (some "k") 200
    (JVal.obj [("choices", JVal.arr [JVal.obj [("message",
      JVal.obj [("content", JVal.str (jstr "no markers here"))])]])])
    (jstr "no markers here")
    (by rfl) (by rfl) (by rfl) (by rfl) (by decide)
    (Or.inl (not_occursIn_of_indexOf_none _ _ (by rfl)))
    (Or.inl (not_occursIn_of_indexOf_none _ _ (by rfl)))
    (Or.inl (not_occursIn_of_indexOf_none _ _ (by rfl)))

/-! ## Claim C10 -/

theorem gherkinValidate_inl_of_bad (body : JVal) (hb : gherkinBad body = true) :
    ∃ m, gherkinValidate body = .inl m := by
  unfold gherkinBad specUrlMissing specUrlTooLong specDescMissing specDescTooLong at hb
  unfold gherkinValidate
  cases hu : body.optField "url" with
  | str u =>
    rw [hu] at hb
    by_cases hue : jsTrim u = []
    · exact ⟨msgUrlRequired, by simp [hue]⟩
    · by_cases hul : MAX_URL_LENGTH < u.length
      · exact ⟨msgUrlTooLong, by simp [List.length_eq_zero, hue, hul]⟩
      · cases hd : body.optField "scenarioDesc" with
        | str d =>
          rw [hd] at hb
          simp only [decide_eq_true_eq, Bool.or_eq_true] at hb
          rcases hb with ((hb | hb) | hb) | hb
          · exact absurd hb hue
          · exact absurd hb hul
          · exact ⟨msgDescRequired, by simp [List.length_eq_zero, hue, hul, hb]⟩
          · by_cases hds : (jsTrim d).length < 5
            · exact ⟨msgDescRequired, by simp [List.length_eq_zero, hue, hul, hds]⟩
            · exact ⟨msgDescTooLong, by simp [List.length_eq_zero, hue, hul, hds, hb]⟩
        | null => exact ⟨msgDescRequired, by simp [List.length_eq_zero, hue, hul]⟩
        | undefinedV => exact ⟨msgDescRequired, by simp [List.length_eq_zero, hue, hul]⟩
        | bool b => exact ⟨msgDescRequired, by simp [List.length_eq_zero, hue, hul]⟩
        | num n => exact ⟨msgDescRequired, by simp [List.length_eq_zero, hue, hul]⟩
        | arr l => exact ⟨msgDescRequired, by simp [List.length_eq_zero, hue, hul]⟩
        | obj fs => exact ⟨msgDescRequired, by simp [List.length_eq_zero, hue, hul]⟩
  | null => exact ⟨msgUrlRequired, rfl⟩
  | undefinedV => exact ⟨msgUrlRequired, rfl⟩
  | bool b => exact ⟨msgUrlRequired, rfl⟩
  | num n => exact ⟨msgUrlRequired, rfl⟩
  | arr l => exact ⟨msgUrlRequired, rfl⟩
  | obj fs => exact ⟨msgUrlRequired, rfl⟩

theorem gherkinValidate_inr_of_good (body : JVal) (hb : gherkinBad body = false) :
    ∃ u d, body.optField "url" = .str u ∧ body.optField "scenarioDesc" = .str d
      ∧ gherkinValidate body
        = .inr ((jsTrim u).take MAX_URL_LENGTH, (jsTrim d).take MAX_DESC_LENGTH) := by
  unfold gherkinBad specUrlMissing specUrlTooLong specDescMissing specDescTooLong at hb
  cases hu : body.optField "url" with
  | str u =>
    rw [hu] at hb
    cases hd : body.optField "scenarioDesc" with
    | str d =>
      rw [hd] at hb
      simp only [Bool.or_eq_false_iff, decide_eq_false_iff_not] at hb
      obtain ⟨⟨⟨hue, hul⟩, hds⟩, hdl⟩ := hb
      refine ⟨u, d, rfl, rfl, ?_⟩
      unfold gherkinValidate
      rw [hu, hd]
      simp [List.length_eq_zero, hue, hul, hds, hdl]
    | null => rw [hd] at hb; simp at hb
    | undefinedV => rw [hd] at hb; simp at hb
    | bool b => rw [hd] at hb; simp at hb
    | num n => rw [hd] at hb; simp at hb
    | arr l => rw [hd] at hb; simp at hb
    | obj fs => rw [hd] at hb; simp at hb
  | null => rw [hu] at hb; simp at hb
  | undefinedV => rw [hu] at hb; simp at hb
  | bool b => rw [hu] at hb; simp at hb
  | num n => rw [hu] at hb; simp at hb
  | arr l => rw [hu] at hb; simp at hb
  | obj fs => rw [hu] at hb; simp at hb

theorem gherkin_no400_of_inr (body : JVal) (key : Option String) (up : Upstream)
    (su sd : JSStr) (h : gherkinValidate body = .inr (su, sd)) :
    (gherkinHandler (some body) key up).response.status ≠ 400 := by
  cases hk : keyConfigured key with
  | false => simp [gherkinHandler, h, hk]
  | true =>
    cases up with
    | netErr => simp [gherkinHandler, h, hk]
    | resp st rb =>
      by_cases hok : respOk st = true
      · cases rb with
        | error e => simp [gherkinHandler, h, hk, hok]
        | ok data =>
          cases hc : extractContent data with
          | error e => simp [gherkinHandler, h, hk, hok, hc]
          | ok copt =>
            cases copt with
            | none => simp [gherkinHandler, h, hk, hok, hc]
            | some c =>
              by_cases hne : c = []
              · simp [gherkinHandler, h, hk, hok, hc, hne]
              · simp [gherkinHandler, h, hk, hok, hc, hne]
      · have hok' : respOk st = false := by
          cases hx : respOk st with
          | false => rfl
          | true => exact absurd hx hok
        by_cases h429 : st = 429
        · subst h429
          simp [gherkinHandler, h, hk, hok']
        · by_cases h402 : st = 402
          · subst h402
            simp [gherkinHandler, h, hk, hok']
          · simp [gherkinHandler, h, hk, hok', h429, h402]

theorem gherkin_prompt_of_inr (body : JVal) (key : Option String) (up : Upstream)
    (su sd : JSStr) (h : gherkinValidate body = .inr (su, sd))
    (hk : keyConfigured key = true) :
    (gherkinHandler (some body) key up).promptSent = some (gherkinPrompt su sd) := by
  cases up with
  | netErr => simp [gherkinHandler, h, hk]
  | resp st rb =>
    by_cases hok : respOk st = true
    · cases rb with
      | error e => simp [gherkinHandler, h, hk, hok]
      | ok data =>
        cases hc : extractContent data with
        | error e => simp [gherkinHandler, h, hk, hok, hc]
        | ok copt =>
          cases copt with
          | none => simp [gherkinHandler, h, hk, hok, hc]
          | some c =>
            by_cases hne : c = []
            · simp [gherkinHandler, h, hk, hok, hc, hne]
            · simp [gherkinHandler, h, hk, hok, hc, hne]
    · have hok' : respOk st = false := by
        cases hx : respOk st with
        | false => rfl
        | true => exact absurd hx hok
      by_cases h429 : st = 429
      · subst h429
        simp [gherkinHandler, h, hk, hok']
      · by_cases h402 : st = 402
        · subst h402
          simp [gherkinHandler, h, hk, hok']
        · simp [gherkinHandler, h, hk, hok', h429, h402]

/-- C10: the Gherkin handler answers 400 with no gateway call exactly
when `url` is missing / not a string / blank after trimming, or longer
than 500 characters, or `scenarioDesc` is missing / not a string /
shorter than 5 characters after trimming, or longer than 2000
characters; otherwise (with a configured credential) it calls the
gateway with the prompt built from the trimmed `url` truncated to 500
characters and the trimmed `scenarioDesc` truncated to 2000. -/
theorem gherkin_input_limits (body : JVal) (key : Option String) (up : Upstream) :
    (((gherkinHandler (some body) key up).response.status = 400
        ∧ (gherkinHandler (some body) key up).calledGateway = false)
      ↔ gherkinBad body = true)
    ∧ (∀ u d, body.optField "url" = .str u → body.optField "scenarioDesc" = .str d →
        gherkinBad body = false → keyConfigured key = true →
        (gherkinHandler (some body) key up).promptSent
          = some (gherkinPrompt ((jsTrim u).take MAX_URL_LENGTH)
              ((jsTrim d).take MAX_DESC_LENGTH))) := by
  constructor
  · constructor
    · intro hfc
      cases hb : gherkinBad body with
      | true => rfl
      | false =>
        obtain ⟨u, d, _, _, hinr⟩ := gherkinValidate_inr_of_good body hb
        exact absurd hfc.1 (gherkin_no400_of_inr body key up _ _ hinr)
    · intro hb
      obtain ⟨m, hm⟩ := gherkinValidate_inl_of_bad body hb
      simp [gherkinHandler, hm]
  · intro u d hu hd hb hk
    obtain ⟨u', d', hu', hd', hinr⟩ := gherkinValidate_inr_of_good body hb
    rw [hu] at hu'
    rw [hd] at hd'
    injection hu' with e1
    injection hd' with e2
    subst e1
    subst e2
    exact gherkin_prompt_of_inr body key up _ _ hinr hk

/-- C10 witness: a valid body has its trimmed, truncated `url` and
`scenarioDesc` placed into the prompt, and an empty body draws the 400
with no gateway call, both through `gherkin_input_limits`. -/
theorem gherkin_input_limits_witness :
    (gherkinHandler (some (JVal.obj [("url", JVal.str (jstr "https://demo.test")),
        ("scenarioDesc", JVal.str (jstr "  login flow  "))]))
      (some "k") Upstream.netErr).promptSent
      = some (gherkinPrompt (jstr "https://demo.test") (jstr "login flow"))
    ∧ (gherkinHandler (some (JVal.obj [])) (some "k") Upstream.netErr).response.status = 400
    ∧ (gherkinHandler (some (JVal.obj [])) (some "k") Upstream.netErr).calledGateway = false := by
  refine ⟨?_, ?_⟩
  · have h := (gherkin_input_limits (JVal.obj [("url", JVal.str (jstr "https://demo.test")),
      ("scenarioDesc", JVal.str (jstr "  login flow  "))]) (some "k") Upstream.netErr).2
      (jstr "https://demo.test") (jstr "  login flow  ") rfl rfl (by rfl) (by rfl)
    rw [h]
    rfl
  · have h := (gherkin_input_limits (JVal.obj []) (some "k") Upstream.netErr).1.mpr (by rfl)
    exact ⟨h.1, h.2⟩
